import Mathlib

/-!
Verification development for the Telegram channel scraper
(module src/scraper.py, class TelegramScraper).

The Python code is shallowly embedded: every definition below mirrors one
function or code block of src/scraper.py, translated statement by statement.
Python dicts are embedded as insertion-ordered association lists, Python sets
as insertion-ordered duplicate-free lists, the filesystem as an explicit
record, and datetime values as a plain record of calendar fields.  The
scraper stores message_date as an ISO string and later re-parses it with
datetime.fromisoformat; since isoformat/fromisoformat round-trip exactly, the
embedding keeps the datetime value itself in the record.
-/

namespace MedScraper

/-- Embedding of the datetime values the scraper manipulates.  Only the
calendar fields matter to the code under verification (strftime with format
Y-m-d); time-of-day fields are carried for fidelity. -/
structure PyDateTime where
  year : Nat
  month : Nat
  day : Nat
  hour : Nat := 0
  minute : Nat := 0
  second : Nat := 0
deriving DecidableEq, Repr

/-- Zero-pad the decimal representation of n to the given width, as the
strftime directives Y (width 4) and m, d (width 2) do. -/
def padZero (width : Nat) (n : Nat) : String :=
  let s := toString n
  if s.length < width then String.mk (List.replicate (width - s.length) '0') ++ s else s

/-- date.strftime with format Y-m-d, used both for partition directories and
for the date-grouping keys. -/
def PyDateTime.strftimeDate (d : PyDateTime) : String :=
  padZero 4 d.year ++ "-" ++ padZero 2 d.month ++ "-" ++ padZero 2 d.day

/-- Split a character list on a separator character (str.split for a
one-character separator). -/
def splitChar (sep : Char) : List Char → List (List Char)
  | [] => [[]]
  | c :: rest =>
    match splitChar sep rest with
    | [] => if c == sep then [[], []] else [[c]]
    | g :: gs => if c == sep then [] :: g :: gs else (c :: g) :: gs

/-- Decimal value of a digit string (int() on the all-digit components that
strptime extracts from a Y-m-d key). -/
def charsToNat (cs : List Char) : Nat :=
  cs.foldl (fun n c => n * 10 + (c.toNat - '0'.toNat)) 0

/-- datetime.strptime with format Y-m-d, as used in scrape_multiple_channels
to turn a grouping key back into a datetime.  It is only ever applied to keys
produced by strftimeDate. -/
def strptimeDate (s : String) : PyDateTime :=
  match splitChar '-' s.data with
  | [y, m, d] => ⟨charsToNat y, charsToNat m, charsToNat d, 0, 0, 0⟩
  | _ => ⟨0, 0, 0, 0, 0, 0⟩

/-- Lookup in a Python dict embedded as an insertion-ordered association
list (keys are unique by construction of every dict the scraper builds). -/
def dictGet {α : Type} (d : List (String × α)) (k : String) : Option α :=
  (d.find? (fun kv => kv.1 == k)).map (fun kv => kv.2)

/-- Assignment d[k] = v on a Python dict: update in place when the key is
present, append a new binding otherwise. -/
def dictSet {α : Type} (d : List (String × α)) (k : String) (v : α) : List (String × α) :=
  if d.any (fun kv => kv.1 == k) then
    d.map (fun kv => if kv.1 == k then (kv.1, v) else kv)
  else d ++ [(k, v)]

/-- Python set.add on a set embedded as an insertion-ordered list. -/
def setInsert (s : List String) (x : String) : List String :=
  if s.contains x then s else s ++ [x]

/-- The media payload kinds the code distinguishes: message.media is None,
a MessageMediaPhoto, or some other media type. -/
inductive MediaKind where
  | nomedia
  | photo
  | other
deriving DecidableEq, Repr

/-- The fields of a Telethon message that extract_message_data reads. -/
structure RawMessage where
  id : Nat
  date : Option PyDateTime
  text : Option String
  media : MediaKind
  views : Option Nat
  forwards : Option Nat
  is_reply : Bool
  reply_to_msg_id : Option Nat
deriving DecidableEq, Repr

/-- The record built by extract_message_data and persisted to the partition
files. -/
structure MessageData where
  message_id : Nat
  channel_name : String
  message_date : Option PyDateTime
  message_text : String
  has_media : Bool
  image_path : Option String
  views : Nat
  forwards : Nat
  is_reply : Bool
  reply_to_msg_id : Option Nat
  scraped_at : PyDateTime
deriving DecidableEq, Repr

/-- Content of a JSON partition file: a decodable list of records, or bytes
that fail json.load (JSONDecodeError). -/
inductive FileContent where
  | valid (msgs : List MessageData)
  | corrupt
deriving DecidableEq, Repr

/-- The slice of the filesystem the scraper touches: JSON partition files
(path to content) and the set of image files present on disk. -/
structure FileSystem where
  jsonFiles : List (String × FileContent)
  imageFiles : List String
deriving DecidableEq, Repr

/-- Mutable state of a TelegramScraper instance (the fields the verified
methods read or write). -/
structure ScraperState where
  scraped_channels : List String
  scraped_dates : List String
  downloaded_images_count : List (String × Nat)
  channel_max_images : List (String × Nat)
  channel_limit_reached : List String
deriving DecidableEq, Repr

/-- Directory data/raw/images/channel_name. -/
def imageDir (channel_name : String) : String :=
  "data/raw/images/" ++ channel_name

/-- Image path data/raw/images/channel_name/message_id.jpg, as built in both
extract_message_data and download_image. -/
def imagePath (channel_name : String) (message_id : Nat) : String :=
  imageDir channel_name ++ "/" ++ toString message_id ++ ".jpg"

/-- str.lower, embedded as a character map (the channel names in play are
ASCII, where Python str.lower and Char.toLower agree). -/
def lowerStr (s : String) : String :=
  String.mk (s.data.map Char.toLower)

/-- str.strip: drop whitespace from both ends. -/
def stripChars (cs : List Char) : List Char :=
  ((cs.dropWhile Char.isWhitespace).reverse.dropWhile Char.isWhitespace).reverse

/-- Sanitization in save_messages_to_json: keep alphanumerics, space, dash,
underscore; strip; replace spaces with underscores. -/
def sanitizeChannelName (channel_name : String) : String :=
  String.mk ((stripChars (channel_name.data.filter
    (fun c => c.isAlphanum || c == ' ' || c == '-' || c == '_'))).map
    (fun c => if c == ' ' then '_' else c))

/-- Partition file path data/raw/telegram_messages/date_str/safe_name.json. -/
def messagesPath (date_str : String) (safe_channel_name : String) : String :=
  "data/raw/telegram_messages/" ++ date_str ++ "/" ++ safe_channel_name ++ ".json"

/-- Name normalization used by both lookup helpers: lowercase, then remove
spaces, underscores and dashes. -/
def normalizeName (channel_name : String) : String :=
  String.mk ((lowerStr channel_name).data.filter
    (fun c => !(c == ' ' || c == '_' || c == '-')))

/-- The hard-coded pattern table shared by get_max_images_for_channel and
get_config_channel_name. -/
def channel_mappings : List (String × String) :=
  [("lobelia", "lobelia4cosmetics"), ("chemed", "CheMed123"), ("tikvah", "tikvahpharma")]

/-- Boolean prefix test on character lists. -/
def charsPrefixOf : List Char → List Char → Bool
  | [], _ => true
  | _ :: _, [] => false
  | a :: as, b :: bs => a == b && charsPrefixOf as bs

/-- Boolean substring test on character lists, embedding the Python
expression pat in s for strings. -/
def charsInfixOf (pat : List Char) : List Char → Bool
  | [] => pat.isEmpty
  | b :: bs => charsPrefixOf pat (b :: bs) || charsInfixOf pat bs

/-- The for key, value in self.channel_max_images.items() loop of
get_max_images_for_channel: first case-insensitive key match wins. -/
def ciItemsLookup : List (String × Nat) → String → Option Nat
  | [], _ => none
  | (k, v) :: rest, name =>
    if lowerStr k == lowerStr name then some v else ciItemsLookup rest name

/-- The for pattern, config_name in channel_mappings.items() loop of
get_max_images_for_channel: first pattern contained in the normalized name,
with the config key present in the limits dict, wins. -/
def fuzzyItemsLookup (limits : List (String × Nat)) (normalized : String) :
    List (String × String) → Option Nat
  | [] => none
  | (pat, config_name) :: rest =>
    if charsInfixOf pat.toList normalized.toList && (dictGet limits config_name).isSome then
      dictGet limits config_name
    else fuzzyItemsLookup limits normalized rest

/-- TelegramScraper.get_max_images_for_channel.  The limits dict is the
instance field self.channel_max_images; defaultMax is DEFAULT_MAX_IMAGES. -/
def get_max_images_for_channel (defaultMax : Nat) (limits : List (String × Nat))
    (channel_name : String) : Nat :=
  let normalized_name := normalizeName channel_name
  match dictGet limits channel_name with
  | some v => v
  | none =>
    match ciItemsLookup limits channel_name with
    | some v => v
    | none =>
      match fuzzyItemsLookup limits normalized_name channel_mappings with
      | some v => v
      | none => defaultMax

/-- The for key in self.channel_max_images.keys() loop of
get_config_channel_name: first case-insensitive match returns the key. -/
def ciKeyLookup : List (String × Nat) → String → Option String
  | [], _ => none
  | (k, _) :: rest, name =>
    if lowerStr k == lowerStr name then some k else ciKeyLookup rest name

/-- The pattern loop of get_config_channel_name: unlike the quota lookup, it
does not require the config key to be present in the limits dict. -/
def patternKeyLookup (normalized : String) : List (String × String) → Option String
  | [] => none
  | (pat, config_name) :: rest =>
    if charsInfixOf pat.toList normalized.toList then some config_name
    else patternKeyLookup normalized rest

/-- TelegramScraper.get_config_channel_name. -/
def get_config_channel_name (limits : List (String × Nat)) (channel_name : String) : String :=
  let normalized_name := normalizeName channel_name
  if (dictGet limits channel_name).isSome then channel_name
  else
    match ciKeyLookup limits channel_name with
    | some k => k
    | none =>
      match patternKeyLookup normalized_name channel_mappings with
      | some config_name => config_name
      | none => channel_name

/-- The channel_max_images dict built by _load_channel_limits when no
per-channel override is set in the environment: the three known channels,
each mapped to DEFAULT_MAX_IMAGES. -/
def standardLimits (defaultMax : Nat) : List (String × Nat) :=
  [("CheMed123", defaultMax), ("lobelia4cosmetics", defaultMax), ("tikvahpharma", defaultMax)]

/-- TelegramScraper.extract_message_data.  The input is an Option because the
code first rejects falsy messages and messages without an id attribute; now is
the datetime.now() read for scraped_at.  The internal try/except of the
source catches any exception and returns None; the embedded field accesses
are total, so no further failure case arises. -/
def extract_message_data (message : Option RawMessage) (channel_name : String)
    (now : PyDateTime) : Option MessageData :=
  match message with
  | none => none
  | some m =>
    some {
      message_id := m.id
      channel_name := channel_name
      message_date := m.date
      message_text := m.text.getD ""
      has_media := m.media != MediaKind.nomedia
      image_path :=
        if m.media == MediaKind.photo then some (imagePath channel_name m.id) else none
      views := m.views.getD 0
      forwards := m.forwards.getD 0
      is_reply := m.is_reply
      reply_to_msg_id := if m.is_reply then m.reply_to_msg_id else none
      scraped_at := now }

/-- Result of one download_image call: the returned Bool, the updated scraper
state and filesystem, and the list of paths actually fetched from the
provider (download_media calls), used to observe that a binary fetch did or
did not happen. -/
structure DownloadOutcome where
  result : Bool
  st : ScraperState
  fs : FileSystem
  fetched : List String
deriving DecidableEq, Repr

/-- TelegramScraper.download_image, statement by statement.  The embedding
assumes the provider fetch succeeds (the except branch that downgrades a
fetch error to False is outside the claims under verification). -/
def download_image (defaultMax : Nat) (message : RawMessage) (channel_name : String)
    (message_id : Nat) (st : ScraperState) (fs : FileSystem) : DownloadOutcome :=
  if message.media != MediaKind.photo then
    ⟨false, st, fs, []⟩
  else
    let config_channel := get_config_channel_name st.channel_max_images channel_name
    let max_images := get_max_images_for_channel defaultMax st.channel_max_images channel_name
    -- if config_channel not in self.downloaded_images_count: set it to 0
    let st :=
      if (dictGet st.downloaded_images_count config_channel).isNone then
        { st with downloaded_images_count := dictSet st.downloaded_images_count config_channel 0 }
      else st
    let count := (dictGet st.downloaded_images_count config_channel).getD 0
    if max_images ≤ count then
      let st :=
        if st.channel_limit_reached.contains config_channel then st
        else { st with channel_limit_reached := st.channel_limit_reached ++ [config_channel] }
      ⟨false, st, fs, []⟩
    else
      let image_path := imagePath channel_name message_id
      if fs.imageFiles.contains image_path then
        ⟨true, st, fs, []⟩
      else
        ⟨true,
         { st with downloaded_images_count :=
             dictSet st.downloaded_images_count config_channel (count + 1) },
         { fs with imageFiles := fs.imageFiles ++ [image_path] },
         [image_path]⟩

/-- The expression len(list(image_dir.glob("*.jpg"))) of scrape_channel:
count files directly inside data/raw/images/channel_name whose name ends in
.jpg (the glob star does not cross directory separators). -/
def countExistingImages (fs : FileSystem) (channel_name : String) : Nat :=
  (fs.imageFiles.filter (fun p =>
    charsPrefixOf (imageDir channel_name ++ "/").data p.data &&
    (let rest := p.data.drop (imageDir channel_name ++ "/").data.length
     charsPrefixOf ".jpg".data.reverse rest.reverse && !(rest.contains '/')))).length

/-- The per-channel initialization block of scrape_channel (the code between
resolving config_channel and the message loop): on first encounter of the
canonical channel key, seed downloaded_images_count from the count of .jpg
files already on disk and flag the channel if the seed already meets the
limit; on later encounters only refresh the limit_reached flag. -/
def init_channel_counter (defaultMax : Nat) (channel_name : String)
    (st : ScraperState) (fs : FileSystem) : ScraperState :=
  let config_channel := get_config_channel_name st.channel_max_images channel_name
  let max_images := get_max_images_for_channel defaultMax st.channel_max_images channel_name
  match dictGet st.downloaded_images_count config_channel with
  | none =>
    let existing_count := countExistingImages fs channel_name
    let st :=
      { st with downloaded_images_count :=
          dictSet st.downloaded_images_count config_channel existing_count }
    if max_images ≤ existing_count then
      { st with channel_limit_reached := setInsert st.channel_limit_reached config_channel }
    else st
  | some c =>
    if max_images ≤ c then
      { st with channel_limit_reached := setInsert st.channel_limit_reached config_channel }
    else st

/-- Running state of the message loop of scrape_channel: the accumulated
records, the scraper state, the filesystem, the provider fetches performed,
and the flood-wait sleeps performed by the handler inside the loop body. -/
structure LoopState where
  messages : List MessageData
  st : ScraperState
  fs : FileSystem
  fetched : List String
  waits : List Nat
deriving DecidableEq, Repr

/-- The body of the message loop of scrape_channel for one yielded message:
extract the record; when extraction succeeds, keep the record and, when it
has media and an image path, attempt the download.  All calls made here
catch their own exceptions internally (extract_message_data and
download_image both wrap their bodies in try/except), so the body itself
never raises. -/
def process_message (defaultMax : Nat) (now : PyDateTime) (channel_name : String)
    (message : Option RawMessage) (ls : LoopState) : LoopState :=
  match message with
  | none => ls
  | some raw =>
    match extract_message_data (some raw) channel_name now with
    | none => ls
    | some md =>
      let ls := { ls with messages := ls.messages ++ [md] }
      if md.has_media && md.image_path.isSome then
        let out := download_image defaultMax raw channel_name md.message_id ls.st ls.fs
        { ls with st := out.st, fs := out.fs, fetched := ls.fetched ++ out.fetched }
      else ls

/-- One step of the provider-paginated iteration in scrape_channel: the
iterator either yields a message (possibly a falsy or id-less one, embedded
as none), or its page fetch raises a FloodWaitError carrying a wait in
seconds, or it raises some other exception. -/
inductive IterEvent where
  | msg (m : Option RawMessage)
  | floodWait (seconds : Nat)
  | iterError
deriving DecidableEq, Repr

/-- The async-for message loop of scrape_channel, with the exception
structure of the source embedded faithfully.  The try/except with the
FloodWaitError and Exception handlers is INSIDE the loop body; an exception
raised by the iterator itself at the loop header (the page fetch) is not
covered by it and propagates to the enclosing try of scrape_channel, whose
except-Exception handler logs the error and falls through to returning the
messages collected so far.  Because every call inside the loop body catches
its own exceptions and returns None or False instead of raising (see
process_message), the FloodWaitError handler in the body is unreachable and
no sleep-and-resume ever happens for an iterator-raised flood signal.  The
returned Bool records whether the loop completed normally (True) or was
aborted by an iterator exception (False). -/
def scrape_channel_loop (defaultMax : Nat) (now : PyDateTime) (channel_name : String) :
    List IterEvent → LoopState → LoopState × Bool
  | [], ls => (ls, true)
  | IterEvent.msg m :: rest, ls =>
    scrape_channel_loop defaultMax now channel_name rest
      (process_message defaultMax now channel_name m ls)
  | IterEvent.floodWait _ :: _, ls => (ls, false)
  | IterEvent.iterError :: _, ls => (ls, false)

/-- TelegramScraper.scrape_channel after entity resolution: per-channel
counter initialization, the message loop over the iterator events, and, on
normal completion only, marking the channel as scraped (the outer
except-Exception handler skips that line when the loop aborted). -/
def scrape_channel_model (defaultMax : Nat) (now : PyDateTime) (channel_name : String)
    (events : List IterEvent) (st : ScraperState) (fs : FileSystem) : LoopState :=
  let st := init_channel_counter defaultMax channel_name st fs
  let (ls, ok) := scrape_channel_loop defaultMax now channel_name events
    ⟨[], st, fs, [], []⟩
  if ok then
    { ls with st :=
        { ls.st with scraped_channels := setInsert ls.st.scraped_channels channel_name } }
  else ls

/-- TelegramScraper.save_messages_to_json.  now stands for datetime.now(),
used when the date argument is None. -/
def save_messages_to_json (messages : List MessageData) (channel_name : String)
    (date : Option PyDateTime) (now : PyDateTime) (st : ScraperState) (fs : FileSystem) :
    ScraperState × FileSystem :=
  if messages.isEmpty then (st, fs)
  else
    let date := date.getD now
    let date_str := date.strftimeDate
    let safe_channel_name := sanitizeChannelName channel_name
    let output_file := messagesPath date_str safe_channel_name
    let existing_data : List MessageData :=
      match dictGet fs.jsonFiles output_file with
      | some (FileContent.valid l) => l
      | some FileContent.corrupt => []
      | none => []
    let existing_ids := existing_data.map (fun m => m.message_id)
    let new_messages := messages.filter (fun m => !(existing_ids.contains m.message_id))
    let all_messages := existing_data ++ new_messages
    ({ st with scraped_dates := setInsert st.scraped_dates date_str },
     { fs with jsonFiles := dictSet fs.jsonFiles output_file (FileContent.valid all_messages) })

/-- The grouping key of scrape_multiple_channels: the calendar date of
message_date (via fromisoformat and strftime), falling back to now. -/
def dateKey (now : PyDateTime) (m : MessageData) : String :=
  (m.message_date.getD now).strftimeDate

/-- Appending one value to the bucket of key k in a Python dict of lists,
creating the bucket when absent (the two-statement pattern of
scrape_multiple_channels). -/
def dictAppend {α : Type} (d : List (String × List α)) (k : String) (v : α) :
    List (String × List α) :=
  if d.any (fun kv => kv.1 == k) then
    d.map (fun kv => if kv.1 == k then (kv.1, kv.2 ++ [v]) else kv)
  else d ++ [(k, [v])]

/-- The messages_by_date grouping loop of scrape_multiple_channels. -/
def groupByDate (now : PyDateTime) (msgs : List MessageData) :
    List (String × List MessageData) :=
  msgs.foldl (fun acc m => dictAppend acc (dateKey now m) m) []

/-- The save loop of scrape_multiple_channels: group the messages by date
key, then for each group parse the key back to a datetime and call
save_messages_to_json with it. -/
def flush_by_date (now : PyDateTime) (channel_name : String) (msgs : List MessageData)
    (st : ScraperState) (fs : FileSystem) : ScraperState × FileSystem :=
  (groupByDate now msgs).foldl
    (fun p g => save_messages_to_json g.2 channel_name (some (strptimeDate g.1)) now p.1 p.2)
    (st, fs)

/-- The partition file path for a channel and date, as computed inside
save_messages_to_json. -/
def partitionPath (channel_name : String) (d : PyDateTime) : String :=
  messagesPath d.strftimeDate (sanitizeChannelName channel_name)

section DictLemmas

variable {α : Type}

theorem dictGet_map_update_self (k : String) (v : α) :
    ∀ d : List (String × α), d.any (fun kv => kv.1 == k) = true →
      dictGet (d.map (fun kv => if kv.1 == k then (kv.1, v) else kv)) k = some v := by
  intro d
  induction d with
  | nil => intro h; simp at h
  | cons kv rest ih =>
    intro h
    by_cases hk : (kv.1 == k) = true
    · simp only [List.map_cons, hk, reduceIte, dictGet]
      rw [List.find?_cons_of_pos _ (by simpa using hk)]
      rfl
    · simp only [List.map_cons, hk, Bool.false_eq_true, reduceIte, dictGet]
      rw [List.find?_cons_of_neg _ (by simpa using hk)]
      have hrest : rest.any (fun kv => kv.1 == k) = true := by
        simpa [List.any_cons, hk] using h
      exact ih hrest

theorem dictGet_append_single_self (k : String) (v : α) :
    ∀ d : List (String × α), d.any (fun kv => kv.1 == k) = false →
      dictGet (d ++ [(k, v)]) k = some v := by
  intro d
  induction d with
  | nil => simp [dictGet]
  | cons kv rest ih =>
    intro h
    simp only [List.any_cons, Bool.or_eq_false_iff] at h
    simp only [List.cons_append, dictGet]
    rw [List.find?_cons_of_neg _ (by simp [h.1])]
    exact ih h.2

theorem dictGet_map_update_ne (k k' : String) (v : α) (hne : k' ≠ k) :
    ∀ d : List (String × α),
      dictGet (d.map (fun kv => if kv.1 == k then (kv.1, v) else kv)) k' = dictGet d k' := by
  intro d
  induction d with
  | nil => rfl
  | cons kv rest ih =>
    by_cases hk' : (kv.1 == k') = true
    · have hkeq : kv.1 = k' := by simpa using hk'
      have hkk : (kv.1 == k) = false := by
        simp [hkeq]
        exact fun hh => hne hh
      simp only [List.map_cons, hkk, Bool.false_eq_true, reduceIte, dictGet]
      rw [List.find?_cons_of_pos _ (by simpa using hk'),
        List.find?_cons_of_pos _ (by simpa using hk')]
    · by_cases hk : (kv.1 == k) = true
      · simp only [List.map_cons, hk, reduceIte, dictGet]
        rw [List.find?_cons_of_neg _ (by simpa using hk'),
          List.find?_cons_of_neg _ (by simpa using hk')]
        exact ih
      · simp only [List.map_cons, hk, Bool.false_eq_true, reduceIte, dictGet]
        rw [List.find?_cons_of_neg _ (by simpa using hk'),
          List.find?_cons_of_neg _ (by simpa using hk')]
        exact ih

theorem dictGet_append_single_ne (k k' : String) (v : α) (hne : k' ≠ k) :
    ∀ d : List (String × α), dictGet (d ++ [(k, v)]) k' = dictGet d k' := by
  intro d
  induction d with
  | nil =>
    have : (k == k') = false := by
      simp
      exact fun hh => hne hh.symm
    simp [dictGet, List.find?, this]
  | cons kv rest ih =>
    by_cases hk' : (kv.1 == k') = true
    · simp only [List.cons_append, dictGet]
      rw [List.find?_cons_of_pos _ (by simpa using hk'),
        List.find?_cons_of_pos _ (by simpa using hk')]
    · simp only [List.cons_append, dictGet]
      rw [List.find?_cons_of_neg _ (by simpa using hk'),
        List.find?_cons_of_neg _ (by simpa using hk')]
      exact ih

theorem dictGet_dictSet_self (d : List (String × α)) (k : String) (v : α) :
    dictGet (dictSet d k v) k = some v := by
  unfold dictSet
  by_cases h : d.any (fun kv => kv.1 == k) = true
  · rw [if_pos h]
    exact dictGet_map_update_self k v d h
  · rw [if_neg h]
    exact dictGet_append_single_self k v d (eq_false_of_ne_true h)

theorem dictGet_dictSet_ne (d : List (String × α)) (k k' : String) (v : α)
    (hne : k' ≠ k) : dictGet (dictSet d k v) k' = dictGet d k' := by
  unfold dictSet
  by_cases h : d.any (fun kv => kv.1 == k) = true
  · rw [if_pos h]
    exact dictGet_map_update_ne k k' v hne d
  · rw [if_neg h]
    exact dictGet_append_single_ne k k' v hne d

end DictLemmas

/-- C10: calling save_messages_to_json with an empty message list returns
before touching anything: no partition file is created or modified and the
date is not added to the scraped-dates set, for every channel name, date
argument, scraper state and filesystem. -/
theorem save_empty_messages_noop (channel_name : String) (date : Option PyDateTime)
    (now : PyDateTime) (st : ScraperState) (fs : FileSystem) :
    save_messages_to_json [] channel_name date now st fs = (st, fs) := rfl

/-- C9: when the existing partition file fails to decode as JSON,
save_messages_to_json treats the existing content as an empty list and
completes the flush, writing exactly the new messages to the file (no
exception is raised: the embedded function is total and reaches the write). -/
theorem save_corrupt_file_treated_as_empty (messages : List MessageData)
    (channel_name : String) (d now : PyDateTime) (st : ScraperState) (fs : FileSystem)
    (hne : messages ≠ [])
    (hcorrupt : dictGet fs.jsonFiles (partitionPath channel_name d) = some FileContent.corrupt) :
    dictGet (save_messages_to_json messages channel_name (some d) now st fs).2.jsonFiles
      (partitionPath channel_name d) = some (FileContent.valid messages) := by
  unfold save_messages_to_json
  have hempty : messages.isEmpty = false := by
    cases messages with
    | nil => exact absurd rfl hne
    | cons m ms => rfl
  simp only [hempty, Bool.false_eq_true, reduceIte, Option.getD_some]
  have hpath : messagesPath d.strftimeDate (sanitizeChannelName channel_name) =
      partitionPath channel_name d := rfl
  rw [hpath, hcorrupt]
  have hfilter : (messages.filter (fun m => !(List.contains [] m.message_id))) = messages := by
    simp
  simp only [List.map_nil, hfilter, List.nil_append]
  exact dictGet_dictSet_self _ _ _

/-- C5: get_config_channel_name maps the casing variants CheMed123,
chemed123 and ChEmEd123 of the known channel all to the single registry key
CheMed123 (for any configured quota values), so quota state for them is
keyed by one shared counter. -/
theorem config_channel_name_canonicalization (a b c : Nat) :
    get_config_channel_name
      [("CheMed123", a), ("lobelia4cosmetics", b), ("tikvahpharma", c)] "CheMed123"
      = "CheMed123" ∧
    get_config_channel_name
      [("CheMed123", a), ("lobelia4cosmetics", b), ("tikvahpharma", c)] "chemed123"
      = "CheMed123" ∧
    get_config_channel_name
      [("CheMed123", a), ("lobelia4cosmetics", b), ("tikvahpharma", c)] "ChEmEd123"
      = "CheMed123" := by
  exact ⟨rfl, rfl, rfl⟩

/-- C8: when the channel quota is not exhausted, download_image with an
already-existing target file returns true, performs no provider fetch, and
leaves the whole scraper state and filesystem unchanged; only when the
target file does not exist does it fetch, write the file, and increment the
counter by one (all other state unchanged). -/
theorem download_image_exists_frame (defaultMax : Nat) (raw : RawMessage)
    (channel_name : String) (mid n : Nat) (st : ScraperState) (fs : FileSystem)
    (hphoto : raw.media = MediaKind.photo)
    (hcount : dictGet st.downloaded_images_count
      (get_config_channel_name st.channel_max_images channel_name) = some n)
    (hquota : n < get_max_images_for_channel defaultMax st.channel_max_images channel_name) :
    (fs.imageFiles.contains (imagePath channel_name mid) = true →
      download_image defaultMax raw channel_name mid st fs = ⟨true, st, fs, []⟩) ∧
    (fs.imageFiles.contains (imagePath channel_name mid) = false →
      download_image defaultMax raw channel_name mid st fs =
        ⟨true,
         { st with downloaded_images_count := dictSet st.downloaded_images_count (get_config_channel_name st.channel_max_images channel_name) (n + 1) },
         { fs with imageFiles := fs.imageFiles ++ [imagePath channel_name mid] },
         [imagePath channel_name mid]⟩) := by
  unfold download_image
  have hmedia : (raw.media != MediaKind.photo) = false := by
    simp [hphoto]
  have hsome : (dictGet st.downloaded_images_count
      (get_config_channel_name st.channel_max_images channel_name)).isNone = false := by
    rw [hcount]; rfl
  simp only [hmedia, Bool.false_eq_true, reduceIte, hsome]
  rw [hcount]
  simp only [Option.getD_some]
  rw [if_neg (by omega)]
  constructor
  · intro hex
    rw [if_pos hex]
  · intro hnex
    rw [if_neg (by simpa using hnex)]

/-- Concrete instantiation of download_image_exists_frame: channel
CheMed123, counter at 0 of 1500; with the target on disk the call is a pure
no-op returning true, without it the file is fetched and the counter becomes
one. -/
theorem download_image_exists_frame_witness :
    (download_image 1500 ⟨7, none, none, MediaKind.photo, none, none, false, none⟩
      "CheMed123" 7
      ⟨[], [], [("CheMed123", 0)], standardLimits 1500, []⟩
      ⟨[], [imagePath "CheMed123" 7]⟩ =
      ⟨true, ⟨[], [], [("CheMed123", 0)], standardLimits 1500, []⟩,
       ⟨[], [imagePath "CheMed123" 7]⟩, []⟩) ∧
    (download_image 1500 ⟨7, none, none, MediaKind.photo, none, none, false, none⟩
      "CheMed123" 7
      ⟨[], [], [("CheMed123", 0)], standardLimits 1500, []⟩
      ⟨[], []⟩ =
      ⟨true, ⟨[], [], [("CheMed123", 1)], standardLimits 1500, []⟩,
       ⟨[], [imagePath "CheMed123" 7]⟩, [imagePath "CheMed123" 7]⟩) := by
  constructor
  · exact (download_image_exists_frame 1500
      ⟨7, none, none, MediaKind.photo, none, none, false, none⟩ "CheMed123" 7 0
      ⟨[], [], [("CheMed123", 0)], standardLimits 1500, []⟩
      ⟨[], [imagePath "CheMed123" 7]⟩ rfl (by decide) (by decide)).1 (by decide)
  · have h := (download_image_exists_frame 1500
      ⟨7, none, none, MediaKind.photo, none, none, false, none⟩ "CheMed123" 7 0
      ⟨[], [], [("CheMed123", 0)], standardLimits 1500, []⟩
      ⟨[], []⟩ rfl (by decide) (by decide)).2 (by decide)
    simpa using h

/-- Helper: when the counter for the canonical key is present and at or
above the limit, download_image refuses: it returns False, fetches nothing,
leaves the filesystem and the counter untouched, and at most flags the
channel as limit-reached. -/
theorem download_image_quota_exhausted_eq (defaultMax : Nat) (raw : RawMessage)
    (channel_name : String) (mid n : Nat) (st : ScraperState) (fs : FileSystem)
    (hphoto : raw.media = MediaKind.photo)
    (hcount : dictGet st.downloaded_images_count
      (get_config_channel_name st.channel_max_images channel_name) = some n)
    (hquota : get_max_images_for_channel defaultMax st.channel_max_images channel_name ≤ n) :
    download_image defaultMax raw channel_name mid st fs =
      ⟨false,
       (if st.channel_limit_reached.contains
            (get_config_channel_name st.channel_max_images channel_name) then st
        else { st with channel_limit_reached := st.channel_limit_reached ++
          [get_config_channel_name st.channel_max_images channel_name] }),
       fs, []⟩ := by
  unfold download_image
  have hmedia : (raw.media != MediaKind.photo) = false := by simp [hphoto]
  have hsome : (dictGet st.downloaded_images_count
      (get_config_channel_name st.channel_max_images channel_name)).isNone = false := by
    rw [hcount]; rfl
  simp only [hmedia, Bool.false_eq_true, reduceIte, hsome]
  rw [hcount]
  simp only [Option.getD_some]
  rw [if_pos hquota]

/-- Helper: when the counter is present and below the limit and the target
file is absent, download_image fetches the file, appends it to the image
directory, increments the counter, and returns True. -/
theorem download_image_fetch_eq (defaultMax : Nat) (raw : RawMessage)
    (channel_name : String) (mid n : Nat) (st : ScraperState) (fs : FileSystem)
    (hphoto : raw.media = MediaKind.photo)
    (hcount : dictGet st.downloaded_images_count
      (get_config_channel_name st.channel_max_images channel_name) = some n)
    (hquota : n < get_max_images_for_channel defaultMax st.channel_max_images channel_name)
    (hnex : fs.imageFiles.contains (imagePath channel_name mid) = false) :
    download_image defaultMax raw channel_name mid st fs =
      ⟨true,
       { st with downloaded_images_count := dictSet st.downloaded_images_count (get_config_channel_name st.channel_max_images channel_name) (n + 1) },
       { fs with imageFiles := fs.imageFiles ++ [imagePath channel_name mid] },
       [imagePath channel_name mid]⟩ := by
  unfold download_image
  have hmedia : (raw.media != MediaKind.photo) = false := by simp [hphoto]
  have hsome : (dictGet st.downloaded_images_count
      (get_config_channel_name st.channel_max_images channel_name)).isNone = false := by
    rw [hcount]; rfl
  simp only [hmedia, Bool.false_eq_true, reduceIte, hsome]
  rw [hcount]
  simp only [Option.getD_some]
  rw [if_neg (by omega)]
  rw [if_neg (by simpa using hnex)]

/-- The record extract_message_data builds for a photo-carrying message:
has_media is true and image_path is populated. -/
def photoRecord (raw : RawMessage) (channel_name : String) (now : PyDateTime) : MessageData :=
  { message_id := raw.id
    channel_name := channel_name
    message_date := raw.date
    message_text := raw.text.getD ""
    has_media := true
    image_path := some (imagePath channel_name raw.id)
    views := raw.views.getD 0
    forwards := raw.forwards.getD 0
    is_reply := raw.is_reply
    reply_to_msg_id := if raw.is_reply then raw.reply_to_msg_id else none
    scraped_at := now }

/-- Helper: for a photo-carrying message, one pass of the loop body appends
the extracted record (has_media true, image_path populated) and runs
download_image on it. -/
theorem process_message_photo_eq (defaultMax : Nat) (now : PyDateTime)
    (channel_name : String) (raw : RawMessage) (msgs0 : List MessageData)
    (st : ScraperState) (fs : FileSystem) (fetched0 : List String) (waits0 : List Nat)
    (hphoto : raw.media = MediaKind.photo) :
    process_message defaultMax now channel_name (some raw) ⟨msgs0, st, fs, fetched0, waits0⟩ =
      ⟨msgs0 ++ [photoRecord raw channel_name now],
       (download_image defaultMax raw channel_name raw.id st fs).st,
       (download_image defaultMax raw channel_name raw.id st fs).fs,
       fetched0 ++ (download_image defaultMax raw channel_name raw.id st fs).fetched,
       waits0⟩ := by
  obtain ⟨rid, rdate, rtext, rmedia, rviews, rfwds, rrep, rrid⟩ := raw
  dsimp only at hphoto
  subst hphoto
  rfl

/-- C3: when the channel's image quota is already exhausted, a message
carrying a photo is still extracted and kept in the result sequence, its
record has has_media true and a populated image_path, no file is written and
no provider fetch happens, and flushing the result sequence persists the
record to the partition file. -/
theorem text_survives_image_limit (defaultMax : Nat) (raw : RawMessage)
    (channel_name : String) (now d : PyDateTime) (n : Nat)
    (st : ScraperState) (fs : FileSystem) (ls : LoopState)
    (hls : process_message defaultMax now channel_name (some raw) ⟨[], st, fs, [], []⟩ = ls)
    (hphoto : raw.media = MediaKind.photo)
    (hcount : dictGet st.downloaded_images_count
      (get_config_channel_name st.channel_max_images channel_name) = some n)
    (hquota : get_max_images_for_channel defaultMax st.channel_max_images channel_name ≤ n)
    (hnofile : dictGet fs.jsonFiles (partitionPath channel_name d) = none) :
    ls.messages.length = 1 ∧
    (∀ md ∈ ls.messages, md.has_media = true ∧
      md.image_path = some (imagePath channel_name raw.id) ∧
      md.message_text = raw.text.getD "") ∧
    ls.fs = fs ∧
    ls.fetched = [] ∧
    dictGet (save_messages_to_json ls.messages channel_name (some d) now ls.st ls.fs).2.jsonFiles
      (partitionPath channel_name d) = some (FileContent.valid ls.messages) := by
  have hpm := process_message_photo_eq defaultMax now channel_name raw [] st fs [] [] hphoto
  have hdl := download_image_quota_exhausted_eq defaultMax raw channel_name raw.id n st fs
    hphoto hcount hquota
  rw [hpm, hdl] at hls
  dsimp only at hls
  subst hls
  refine ⟨rfl, ?_, rfl, rfl, ?_⟩
  · intro md hmd
    simp only [List.nil_append, List.mem_singleton] at hmd
    subst hmd
    exact ⟨rfl, rfl, rfl⟩
  · unfold save_messages_to_json
    simp only [List.nil_append, List.isEmpty_cons, Bool.false_eq_true, reduceIte,
      Option.getD_some]
    have hpath : messagesPath d.strftimeDate (sanitizeChannelName channel_name) =
        partitionPath channel_name d := rfl
    rw [hpath, hnofile]
    simp only [List.map_nil]
    have hfilter : ∀ l : List MessageData,
        l.filter (fun m => !(List.contains [] m.message_id)) = l := by
      intro l; simp
    rw [hfilter]
    simp only [List.nil_append]
    exact dictGet_dictSet_self _ _ _

/-- Concrete message record used by several witnesses. -/
def exRaw : RawMessage :=
  ⟨9, none, some "hello", MediaKind.photo, none, none, false, none⟩

/-- Concrete scraper state with the CheMed123 counter already at the 1500
default quota. -/
def exStFull : ScraperState :=
  ⟨[], [], [("CheMed123", 1500)], standardLimits 1500, []⟩

/-- Concrete empty filesystem. -/
def exFs : FileSystem := ⟨[], []⟩

/-- Concrete timestamp. -/
def exNow : PyDateTime := ⟨2026, 1, 17, 0, 0, 0⟩

/-- Witness for text_survives_image_limit: channel CheMed123 with the
counter at its 1500 quota, one photo message with id 9. -/
theorem text_survives_image_limit_witness :
    (process_message 1500 exNow "CheMed123" (some exRaw) ⟨[], exStFull, exFs, [], []⟩).messages.length = 1 ∧
    (∀ md ∈ (process_message 1500 exNow "CheMed123" (some exRaw) ⟨[], exStFull, exFs, [], []⟩).messages,
      md.has_media = true ∧
      md.image_path = some (imagePath "CheMed123" exRaw.id) ∧
      md.message_text = exRaw.text.getD "") ∧
    (process_message 1500 exNow "CheMed123" (some exRaw) ⟨[], exStFull, exFs, [], []⟩).fs = exFs ∧
    (process_message 1500 exNow "CheMed123" (some exRaw) ⟨[], exStFull, exFs, [], []⟩).fetched = [] ∧
    dictGet (save_messages_to_json
        (process_message 1500 exNow "CheMed123" (some exRaw) ⟨[], exStFull, exFs, [], []⟩).messages
        "CheMed123" (some exNow) exNow
        (process_message 1500 exNow "CheMed123" (some exRaw) ⟨[], exStFull, exFs, [], []⟩).st
        (process_message 1500 exNow "CheMed123" (some exRaw) ⟨[], exStFull, exFs, [], []⟩).fs).2.jsonFiles
      (partitionPath "CheMed123" exNow) =
      some (FileContent.valid
        (process_message 1500 exNow "CheMed123" (some exRaw) ⟨[], exStFull, exFs, [], []⟩).messages) :=
  text_survives_image_limit 1500 exRaw "CheMed123" exNow exNow 1500 exStFull exFs
    (process_message 1500 exNow "CheMed123" (some exRaw) ⟨[], exStFull, exFs, [], []⟩)
    rfl (by decide) (by decide) (by decide) (by decide)

/-- C2 counterexample: channel CheMed123 with one pre-existing image on disk
(N = 1) and quota M = 1.  The claim says the first download_image call seeds
downloaded_count to N = 1 and therefore refuses (quota reached).  The code
instead seeds a missing counter to 0 inside download_image (the disk-based
seeding lives in scrape_channel, not here), so the call fetches a second
image, returns true, and ends with the counter at 1 despite two files on
disk. -/
theorem download_image_no_disk_seed_counterexample :
    countExistingImages ⟨[], [imagePath "CheMed123" 1]⟩ "CheMed123" = 1 ∧
    get_max_images_for_channel 1500
      [("CheMed123", 1), ("lobelia4cosmetics", 1500), ("tikvahpharma", 1500)] "CheMed123" = 1 ∧
    download_image 1500 ⟨2, none, none, MediaKind.photo, none, none, false, none⟩ "CheMed123" 2
      ⟨[], [], [], [("CheMed123", 1), ("lobelia4cosmetics", 1500), ("tikvahpharma", 1500)], []⟩
      ⟨[], [imagePath "CheMed123" 1]⟩ =
      ⟨true,
       ⟨[], [], [("CheMed123", 1)],
        [("CheMed123", 1), ("lobelia4cosmetics", 1500), ("tikvahpharma", 1500)], []⟩,
       ⟨[], [imagePath "CheMed123" 1, imagePath "CheMed123" 2]⟩,
       [imagePath "CheMed123" 2]⟩ := by
  refine ⟨by decide, by decide, by decide⟩

/-- C2 as amended: the disk-based seeding of the counter happens in the
per-channel initialization block of scrape_channel at the first encounter of
the channel in a session (download_image itself seeds a missing counter to
0); once the counter holds n, download_image downloads and increments while
n is below the resolved quota and returns false once the quota is reached. -/
theorem quota_seed_and_enforcement (defaultMax : Nat) (channel_name : String)
    (st : ScraperState) (fs : FileSystem) (raw : RawMessage) (mid : Nat)
    (hphoto : raw.media = MediaKind.photo) :
    (dictGet st.downloaded_images_count
        (get_config_channel_name st.channel_max_images channel_name) = none →
      dictGet (init_channel_counter defaultMax channel_name st fs).downloaded_images_count
        (get_config_channel_name st.channel_max_images channel_name) =
        some (countExistingImages fs channel_name)) ∧
    (∀ n, dictGet st.downloaded_images_count
        (get_config_channel_name st.channel_max_images channel_name) = some n →
      n < get_max_images_for_channel defaultMax st.channel_max_images channel_name →
      fs.imageFiles.contains (imagePath channel_name mid) = false →
      download_image defaultMax raw channel_name mid st fs =
        ⟨true, { st with downloaded_images_count := dictSet st.downloaded_images_count (get_config_channel_name st.channel_max_images channel_name) (n + 1) }, { fs with imageFiles := fs.imageFiles ++ [imagePath channel_name mid] }, [imagePath channel_name mid]⟩) ∧
    (∀ n, dictGet st.downloaded_images_count
        (get_config_channel_name st.channel_max_images channel_name) = some n →
      get_max_images_for_channel defaultMax st.channel_max_images channel_name ≤ n →
      (download_image defaultMax raw channel_name mid st fs).result = false ∧
      (download_image defaultMax raw channel_name mid st fs).fs = fs ∧
      (download_image defaultMax raw channel_name mid st fs).fetched = []) := by
  refine ⟨?_, ?_, ?_⟩
  · intro h
    unfold init_channel_counter
    simp only [h]
    split
    · exact dictGet_dictSet_self _ _ _
    · exact dictGet_dictSet_self _ _ _
  · intro n hn hlt hnex
    exact download_image_fetch_eq defaultMax raw channel_name mid n st fs hphoto hn hlt hnex
  · intro n hn hge
    rw [download_image_quota_exhausted_eq defaultMax raw channel_name mid n st fs hphoto hn hge]
    exact ⟨rfl, rfl, rfl⟩

/-- Witness for quota_seed_and_enforcement: seeding a fresh CheMed123
counter from one on-disk image gives 1; with the counter at 3 of 1500 a new
file is fetched; with the counter at the quota the fetch is refused. -/
theorem quota_seed_and_enforcement_witness :
    dictGet (init_channel_counter 1500 "CheMed123"
        ⟨[], [], [], standardLimits 1500, []⟩
        ⟨[], [imagePath "CheMed123" 1]⟩).downloaded_images_count "CheMed123" = some 1 ∧
    download_image 1500 exRaw "CheMed123" 9
        ⟨[], [], [("CheMed123", 3)], standardLimits 1500, []⟩ ⟨[], []⟩ =
      ⟨true, ⟨[], [], [("CheMed123", 4)], standardLimits 1500, []⟩,
       ⟨[], [imagePath "CheMed123" 9]⟩, [imagePath "CheMed123" 9]⟩ ∧
    (download_image 1500 exRaw "CheMed123" 9 exStFull exFs).result = false := by
  refine ⟨?_, ?_, ?_⟩
  · exact (quota_seed_and_enforcement 1500 "CheMed123"
      ⟨[], [], [], standardLimits 1500, []⟩ ⟨[], [imagePath "CheMed123" 1]⟩
      exRaw 9 (by decide)).1 (by decide)
  · exact (quota_seed_and_enforcement 1500 "CheMed123"
      ⟨[], [], [("CheMed123", 3)], standardLimits 1500, []⟩ ⟨[], []⟩
      exRaw 9 (by decide)).2.1 3 (by decide) (by decide) (by decide)
  · exact ((quota_seed_and_enforcement 1500 "CheMed123" exStFull exFs
      exRaw 9 (by decide)).2.2 1500 (by decide) (by decide)).1

/-- The merged list save_messages_to_json writes: the previously stored
records followed by the new records whose message_id is not already
present. -/
def mergeRecords (l msgs : List MessageData) : List MessageData :=
  l ++ msgs.filter (fun x => !((l.map (fun r => r.message_id)).contains x.message_id))

/-- C1: flushing a non-empty batch into a partition whose file holds l
rewrites the file to mergeRecords l msgs: the stored records keep their
place as a prefix, every batch id is present afterwards, an id stored
exactly once stays stored exactly once no matter how often the batch repeats
it, and distinct ids stay distinct (union of the two id sets, deduplicated
by message_id). -/
theorem flush_merge_union_dedup (msgs : List MessageData) (channel_name : String)
    (d now : PyDateTime) (st : ScraperState) (fs : FileSystem) (l : List MessageData)
    (hne : msgs ≠ [])
    (hfile : dictGet fs.jsonFiles (partitionPath channel_name d) =
      some (FileContent.valid l)) :
    dictGet (save_messages_to_json msgs channel_name (some d) now st fs).2.jsonFiles
        (partitionPath channel_name d) = some (FileContent.valid (mergeRecords l msgs)) ∧
    l <+: mergeRecords l msgs ∧
    (∀ m ∈ msgs, (l.filter (fun r => r.message_id == m.message_id)).length = 1 →
      ((mergeRecords l msgs).filter (fun r => r.message_id == m.message_id)).length = 1) ∧
    (∀ x ∈ msgs, x.message_id ∈ (mergeRecords l msgs).map (fun r => r.message_id)) ∧
    ((l.map (fun r => r.message_id)).Nodup → (msgs.map (fun r => r.message_id)).Nodup →
      ((mergeRecords l msgs).map (fun r => r.message_id)).Nodup) := by
  refine ⟨?_, List.prefix_append _ _, ?_, ?_, ?_⟩
  · unfold save_messages_to_json
    have hempty : msgs.isEmpty = false := by
      cases msgs with
      | nil => exact absurd rfl hne
      | cons m ms => rfl
    simp only [hempty, Bool.false_eq_true, reduceIte, Option.getD_some]
    have hpath : messagesPath d.strftimeDate (sanitizeChannelName channel_name) =
        partitionPath channel_name d := rfl
    rw [hpath, hfile]
    exact dictGet_dictSet_self _ _ _
  · intro m hm hone
    have hmem : m.message_id ∈ l.map (fun r => r.message_id) := by
      have hpos : 0 < (l.filter (fun r => r.message_id == m.message_id)).length := by omega
      obtain ⟨r, hr⟩ := List.exists_mem_of_length_pos hpos
      have := List.mem_filter.mp hr
      exact List.mem_map.mpr ⟨r, this.1, by simpa using this.2⟩
    unfold mergeRecords
    rw [List.filter_append]
    have hnil : ((msgs.filter
        (fun x => !((l.map (fun r => r.message_id)).contains x.message_id))).filter
        (fun r => r.message_id == m.message_id)) = [] := by
      rw [List.filter_eq_nil_iff]
      intro x hx
      have hx' := List.mem_filter.mp hx
      intro hpx
      have hxid : x.message_id = m.message_id := by simpa using hpx
      have : x.message_id ∉ l.map (fun r => r.message_id) := by
        simpa using hx'.2
      exact this (hxid ▸ hmem)
    rw [hnil, List.append_nil, hone]
  · intro x hx
    unfold mergeRecords
    by_cases hid : x.message_id ∈ l.map (fun r => r.message_id)
    · rw [List.map_append]
      exact List.mem_append_left _ hid
    · rw [List.map_append]
      refine List.mem_append_right _ ?_
      refine List.mem_map.mpr ⟨x, ?_, rfl⟩
      exact List.mem_filter.mpr ⟨hx, by simpa using hid⟩
  · intro hl hm
    unfold mergeRecords
    rw [List.map_append]
    refine List.Nodup.append hl ?_ ?_
    · exact hm.sublist (List.Sublist.map _ (List.filter_sublist _))
    · intro a hal har
      obtain ⟨x, hx, hxa⟩ := List.mem_map.mp har
      have hx' := List.mem_filter.mp hx
      have : x.message_id ∉ l.map (fun r => r.message_id) := by simpa using hx'.2
      exact this (hxa ▸ hal)

/-- Concrete stored record with id 1. -/
def recA : MessageData := ⟨1, "CheMed123", none, "a", false, none, 0, 0, false, none, exNow⟩

/-- Concrete batch record repeating id 1. -/
def recA2 : MessageData := ⟨1, "CheMed123", none, "a2", false, none, 0, 0, false, none, exNow⟩

/-- Concrete batch record with fresh id 2. -/
def recB : MessageData := ⟨2, "CheMed123", none, "b", false, none, 0, 0, false, none, exNow⟩

/-- Filesystem whose CheMed123 partition file already stores recA. -/
def exFsWithFile : FileSystem :=
  ⟨[(partitionPath "CheMed123" exNow, FileContent.valid [recA])], []⟩

/-- Witness for flush_merge_union_dedup: flushing a batch that repeats the
stored id 1 and adds id 2 leaves the file with id 1 exactly once, stored
record first. -/
theorem flush_merge_union_dedup_witness :
    dictGet (save_messages_to_json [recA2, recB] "CheMed123" (some exNow) exNow
        ⟨[], [], [], standardLimits 1500, []⟩ exFsWithFile).2.jsonFiles
      (partitionPath "CheMed123" exNow) = some (FileContent.valid [recA, recB]) ∧
    ((mergeRecords [recA] [recA2, recB]).filter
      (fun r => r.message_id == recA2.message_id)).length = 1 :=
  ⟨(flush_merge_union_dedup [recA2, recB] "CheMed123" exNow exNow
      ⟨[], [], [], standardLimits 1500, []⟩ exFsWithFile [recA]
      (by decide) (by decide)).1,
   (flush_merge_union_dedup [recA2, recB] "CheMed123" exNow exNow
      ⟨[], [], [], standardLimits 1500, []⟩ exFsWithFile [recA]
      (by decide) (by decide)).2.2.1 recA2 (by decide) (by decide)⟩

/-- Filesystem whose CheMed123 partition file holds undecodable bytes. -/
def exFsCorrupt : FileSystem :=
  ⟨[(partitionPath "CheMed123" exNow, FileContent.corrupt)], []⟩

/-- Witness for save_corrupt_file_treated_as_empty: flushing one record over
a corrupt partition file rewrites it with just that record. -/
theorem save_corrupt_file_treated_as_empty_witness :
    dictGet (save_messages_to_json [recA] "CheMed123" (some exNow) exNow
        ⟨[], [], [], standardLimits 1500, []⟩ exFsCorrupt).2.jsonFiles
      (partitionPath "CheMed123" exNow) = some (FileContent.valid [recA]) :=
  save_corrupt_file_treated_as_empty [recA] "CheMed123" exNow exNow
    ⟨[], [], [], standardLimits 1500, []⟩ exFsCorrupt (by decide) (by decide)

/-- The case-insensitive items loop is the first match of the
case-insensitive predicate over the dict in iteration order. -/
theorem ciItemsLookup_eq_find (name : String) :
    ∀ limits : List (String × Nat), ciItemsLookup limits name =
      (limits.find? (fun kv => lowerStr kv.1 == lowerStr name)).map (fun kv => kv.2) := by
  intro limits
  induction limits with
  | nil => rfl
  | cons kv rest ih =>
    obtain ⟨k, v⟩ := kv
    by_cases h : (lowerStr k == lowerStr name) = true
    · rw [List.find?_cons_of_pos _ (by simpa using h)]
      simp [ciItemsLookup, h]
    · rw [List.find?_cons_of_neg _ (by simpa using h)]
      simp only [ciItemsLookup, h, Bool.false_eq_true, reduceIte]
      exact ih

/-- The pattern loop of the quota lookup is the first match of the
substring-and-key-present predicate over the pattern table. -/
theorem fuzzyItemsLookup_eq_find (limits : List (String × Nat)) (normalized : String) :
    ∀ maps : List (String × String), fuzzyItemsLookup limits normalized maps =
      (maps.find? (fun pc => charsInfixOf pc.1.toList normalized.toList &&
        (dictGet limits pc.2).isSome)).bind (fun pc => dictGet limits pc.2) := by
  intro maps
  induction maps with
  | nil => rfl
  | cons pc rest ih =>
    obtain ⟨pat, config_name⟩ := pc
    by_cases h : (charsInfixOf pat.toList normalized.toList &&
        (dictGet limits config_name).isSome) = true
    · rw [List.find?_cons_of_pos _ (by simpa using h)]
      simp only [fuzzyItemsLookup, h, reduceIte, Option.some_bind]
    · rw [List.find?_cons_of_neg _ (by simpa using h)]
      simp only [fuzzyItemsLookup, h, Bool.false_eq_true, reduceIte]
      exact ih

/-- C4: get_max_images_for_channel resolves the quota by trying, in order
with the first hit winning, an exact key match, a case-insensitive key match
in dict iteration order, a normalized-fuzzy pattern match (strip spaces,
underscores and hyphens, lowercase, then look for the known substrings
lobelia, chemed, tikvah whose config key is present), and otherwise falls
through to the global default.  The embedded function is total, so no input
can raise. -/
theorem quota_matching_order (defaultMax : Nat) (limits : List (String × Nat))
    (channel_name : String) :
    (∀ v, dictGet limits channel_name = some v →
      get_max_images_for_channel defaultMax limits channel_name = v) ∧
    (dictGet limits channel_name = none →
      ∀ k v, limits.find? (fun kv => lowerStr kv.1 == lowerStr channel_name) = some (k, v) →
      get_max_images_for_channel defaultMax limits channel_name = v) ∧
    (dictGet limits channel_name = none →
      limits.find? (fun kv => lowerStr kv.1 == lowerStr channel_name) = none →
      ∀ pat config_name v,
        channel_mappings.find? (fun pc =>
          charsInfixOf pc.1.toList (normalizeName channel_name).toList &&
          (dictGet limits pc.2).isSome) = some (pat, config_name) →
        dictGet limits config_name = some v →
        get_max_images_for_channel defaultMax limits channel_name = v) ∧
    (dictGet limits channel_name = none →
      limits.find? (fun kv => lowerStr kv.1 == lowerStr channel_name) = none →
      channel_mappings.find? (fun pc =>
        charsInfixOf pc.1.toList (normalizeName channel_name).toList &&
        (dictGet limits pc.2).isSome) = none →
      get_max_images_for_channel defaultMax limits channel_name = defaultMax) := by
  refine ⟨?_, ?_, ?_, ?_⟩
  · intro v hv
    unfold get_max_images_for_channel
    simp only [hv]
  · intro h0 k v hfind
    unfold get_max_images_for_channel
    simp only [h0]
    rw [ciItemsLookup_eq_find, hfind]
    rfl
  · intro h0 hci pat config_name v hfuzzy hv
    unfold get_max_images_for_channel
    simp only [h0]
    rw [ciItemsLookup_eq_find]
    simp only [hci, Option.map_none']
    rw [fuzzyItemsLookup_eq_find, hfuzzy]
    simp only [Option.some_bind, hv]
  · intro h0 hci hfuzzy
    unfold get_max_images_for_channel
    simp only [h0]
    rw [ciItemsLookup_eq_find]
    simp only [hci, Option.map_none']
    rw [fuzzyItemsLookup_eq_find, hfuzzy]
    rfl

/-- Witness for quota_matching_order: one concrete input per tier of the
cascade (exact, case-insensitive, fuzzy, default) over the standard limits
dict, with a default of 999 to tell the fallback apart. -/
theorem quota_matching_order_witness :
    get_max_images_for_channel 999 (standardLimits 1500) "CheMed123" = 1500 ∧
    get_max_images_for_channel 999 (standardLimits 1500) "chemed123" = 1500 ∧
    get_max_images_for_channel 999 (standardLimits 1500) "Lobelia pharmacy and cosmetics" = 1500 ∧
    get_max_images_for_channel 999 (standardLimits 1500) "UnknownChannel" = 999 :=
  ⟨(quota_matching_order 999 (standardLimits 1500) "CheMed123").1 1500 (by decide),
   (quota_matching_order 999 (standardLimits 1500) "chemed123").2.1 (by decide)
     "CheMed123" 1500 (by decide),
   (quota_matching_order 999 (standardLimits 1500) "Lobelia pharmacy and cosmetics").2.2.1
     (by decide) (by decide) "lobelia" "lobelia4cosmetics" 1500 (by decide) (by decide),
   (quota_matching_order 999 (standardLimits 1500) "UnknownChannel").2.2.2
     (by decide) (by decide) (by decide)⟩

/-- C7: evaluation of the scrape loop at the failing input.  The iterator
yields message 1, then its page fetch raises a flood-wait signal of 3
seconds, and message 2 would follow.  Because the FloodWaitError handler of
the source sits inside the loop body while the signal is raised at the loop
header, the signal escapes to the outer except-Exception handler: the
channel scrape stops with only message 1 collected, performs no wait at all,
and the channel is never marked scraped — message 2 is lost instead of being
resumed after a 3-second suspension. -/
theorem flood_wait_aborts_channel :
    (scrape_channel_model 1500 exNow "UnknownChannel"
      [IterEvent.msg (some ⟨1, none, some "a", MediaKind.nomedia, none, none, false, none⟩),
       IterEvent.floodWait 3,
       IterEvent.msg (some ⟨2, none, some "b", MediaKind.nomedia, none, none, false, none⟩)]
      ⟨[], [], [], standardLimits 1500, []⟩ ⟨[], []⟩).messages.map
        (fun m => m.message_id) = [1] ∧
    (scrape_channel_model 1500 exNow "UnknownChannel"
      [IterEvent.msg (some ⟨1, none, some "a", MediaKind.nomedia, none, none, false, none⟩),
       IterEvent.floodWait 3,
       IterEvent.msg (some ⟨2, none, some "b", MediaKind.nomedia, none, none, false, none⟩)]
      ⟨[], [], [], standardLimits 1500, []⟩ ⟨[], []⟩).waits = [] ∧
    (scrape_channel_model 1500 exNow "UnknownChannel"
      [IterEvent.msg (some ⟨1, none, some "a", MediaKind.nomedia, none, none, false, none⟩),
       IterEvent.floodWait 3,
       IterEvent.msg (some ⟨2, none, some "b", MediaKind.nomedia, none, none, false, none⟩)]
      ⟨[], [], [], standardLimits 1500, []⟩ ⟨[], []⟩).st.scraped_channels = [] := by
  refine ⟨by decide, by decide, by decide⟩

/-- Filtering against an empty set of stored ids keeps every message. -/
theorem filter_not_contains_nil (l : List MessageData) :
    l.filter (fun m => !(List.contains [] m.message_id)) = l := by simp

/-- Setting a key in an empty dict yields the singleton binding. -/
theorem dictSet_nil {α : Type} (k : String) (v : α) : dictSet [] k v = [(k, v)] := rfl

/-- Looking up a different key in a singleton dict misses. -/
theorem dictGet_singleton_ne {α : Type} (p1 p2 : String) (v : α) (h : p1 ≠ p2) :
    dictGet [(p1, v)] p2 = none := by
  unfold dictGet
  rw [List.find?_cons_of_neg _ (by simp [h])]
  rfl

/-- Setting a fresh key in a singleton dict appends the new binding. -/
theorem dictSet_singleton_ne {α : Type} (p1 p2 : String) (v1 w : α) (h : p1 ≠ p2) :
    dictSet [(p1, v1)] p2 w = [(p1, v1), (p2, w)] := by
  unfold dictSet
  rw [if_neg (by simp [h])]
  rfl

/-- Appending under a key absent from the dict creates its bucket. -/
theorem dictAppend_nil {α : Type} (k : String) (v : α) : dictAppend [] k v = [(k, [v])] := rfl

/-- The partition path determines the date component: distinct date strings
give distinct partition paths for the same channel. -/
theorem messagesPath_injective_date (d1 d2 s : String)
    (h : messagesPath d1 s = messagesPath d2 s) : d1 = d2 := by
  have hdata := congrArg String.data h
  simp only [messagesPath, String.data_append] at hdata
  have h1 := List.append_cancel_right hdata
  have h2 := List.append_cancel_right h1
  have h3 := List.append_cancel_right h2
  have h4 := List.append_cancel_left h3
  exact String.ext h4

/-- save_messages_to_json on a partition path with no existing file: the
batch is written as-is and the date string is recorded. -/
theorem save_messages_fresh (messages : List MessageData) (channel_name : String)
    (d now : PyDateTime) (st : ScraperState) (fs : FileSystem)
    (hne : messages ≠ [])
    (hnofile : dictGet fs.jsonFiles
      (messagesPath d.strftimeDate (sanitizeChannelName channel_name)) = none) :
    save_messages_to_json messages channel_name (some d) now st fs =
      ({ st with scraped_dates := setInsert st.scraped_dates d.strftimeDate },
       { fs with jsonFiles := dictSet fs.jsonFiles (messagesPath d.strftimeDate (sanitizeChannelName channel_name)) (FileContent.valid messages) }) := by
  unfold save_messages_to_json
  have hempty : messages.isEmpty = false := by
    cases messages with
    | nil => exact absurd rfl hne
    | cons m ms => rfl
  simp only [hempty, Bool.false_eq_true, reduceIte, Option.getD_some]
  rw [hnofile]
  simp only [List.map_nil]
  rw [filter_not_contains_nil]
  simp only [List.nil_append]

/-- Folding the date-grouping step over messages whose keys all lie in
the two existing buckets appends each message to its bucket. -/
theorem groupFold_two_buckets (now : PyDateTime) (k1 k2 : String) (hne : k1 ≠ k2) :
    ∀ (l : List MessageData) (a b : List MessageData),
      (∀ m ∈ l, dateKey now m = k1 ∨ dateKey now m = k2) →
      l.foldl (fun acc m => dictAppend acc (dateKey now m) m) [(k1, a), (k2, b)] =
        [(k1, a ++ l.filter (fun m => dateKey now m == k1)),
         (k2, b ++ l.filter (fun m => dateKey now m == k2))] := by
  intro l
  induction l with
  | nil => intro a b _; simp
  | cons m rest ih =>
    intro a b h
    have hk12 : (k1 == k2) = false := by simp [hne]
    have hk21 : (k2 == k1) = false := by simp [Ne.symm hne]
    rcases h m (List.mem_cons_self m rest) with h1 | h2
    · have estep : dictAppend [(k1, a), (k2, b)] (dateKey now m) m = [(k1, a ++ [m]), (k2, b)] := by
        rw [h1]
        unfold dictAppend
        rw [if_pos (by simp)]
        simp [hk21, Ne.symm hne]
      rw [List.foldl_cons, estep,
        ih (a ++ [m]) b (fun x hx => h x (List.mem_cons_of_mem _ hx))]
      simp [List.filter_cons, h1, hk12]
    · have estep : dictAppend [(k1, a), (k2, b)] (dateKey now m) m = [(k1, a), (k2, b ++ [m])] := by
        rw [h2]
        unfold dictAppend
        rw [if_pos (by simp)]
        simp [hk12, hne]
      rw [List.foldl_cons, estep,
        ih a (b ++ [m]) (fun x hx => h x (List.mem_cons_of_mem _ hx))]
      simp [List.filter_cons, h2, hk21]

/-- Folding the date-grouping step from a single bucket: the second bucket
appears exactly when some message carries the second key, in encounter
order. -/
theorem groupFold_one_bucket (now : PyDateTime) (k1 k2 : String) (hne : k1 ≠ k2) :
    ∀ (l : List MessageData) (a : List MessageData),
      (∀ m ∈ l, dateKey now m = k1 ∨ dateKey now m = k2) →
      l.foldl (fun acc m => dictAppend acc (dateKey now m) m) [(k1, a)] =
        (if (l.filter (fun m => dateKey now m == k2)).isEmpty then
          [(k1, a ++ l.filter (fun m => dateKey now m == k1))]
        else
          [(k1, a ++ l.filter (fun m => dateKey now m == k1)),
           (k2, l.filter (fun m => dateKey now m == k2))]) := by
  intro l
  induction l with
  | nil => intro a _; simp
  | cons m rest ih =>
    intro a h
    have hk12 : (k1 == k2) = false := by simp [hne]
    rcases h m (List.mem_cons_self m rest) with h1 | h2
    · have estep : dictAppend [(k1, a)] (dateKey now m) m = [(k1, a ++ [m])] := by
        rw [h1]
        unfold dictAppend
        rw [if_pos (by simp)]
        simp
      rw [List.foldl_cons, estep,
        ih (a ++ [m]) (fun x hx => h x (List.mem_cons_of_mem _ hx))]
      simp [List.filter_cons, h1, hk12]
    · have estep : dictAppend [(k1, a)] (dateKey now m) m = [(k1, a), (k2, [m])] := by
        rw [h2]
        unfold dictAppend
        rw [if_neg (by simp [hne])]
        rfl
      rw [List.foldl_cons, estep,
        groupFold_two_buckets now k1 k2 hne rest a [m]
          (fun x hx => h x (List.mem_cons_of_mem _ hx))]
      have hfc2 : (m :: rest).filter (fun x => dateKey now x == k2) =
          m :: rest.filter (fun x => dateKey now x == k2) := by
        simp [List.filter_cons, h2]
      rw [hfc2]
      simp [List.filter_cons, h2, hk12, Ne.symm hne]

/-- The grouping loop of scrape_multiple_channels on a batch spanning
exactly the two date keys k1 (first message) and k2 produces the two buckets
in encounter order, each holding the filter of the batch by its key. -/
theorem groupByDate_two_dates (now : PyDateTime) (k1 k2 : String) (hne : k1 ≠ k2)
    (m0 : MessageData) (rest : List MessageData)
    (h0 : dateKey now m0 = k1)
    (hall : ∀ m ∈ m0 :: rest, dateKey now m = k1 ∨ dateKey now m = k2)
    (hk2 : ∃ m ∈ rest, dateKey now m = k2) :
    groupByDate now (m0 :: rest) =
      [(k1, (m0 :: rest).filter (fun m => dateKey now m == k1)),
       (k2, (m0 :: rest).filter (fun m => dateKey now m == k2))] := by
  have hk12 : (k1 == k2) = false := by simp [hne]
  unfold groupByDate
  rw [List.foldl_cons]
  have estep : dictAppend [] (dateKey now m0) m0 = [(k1, [m0])] := by
    rw [h0, dictAppend_nil]
  rw [estep,
    groupFold_one_bucket now k1 k2 hne rest [m0]
      (fun x hx => hall x (List.mem_cons_of_mem _ hx))]
  have hfe : (rest.filter (fun m => dateKey now m == k2)).isEmpty = false := by
    obtain ⟨m, hm, hk⟩ := hk2
    have hmem : m ∈ rest.filter (fun x => dateKey now x == k2) :=
      List.mem_filter.mpr ⟨hm, by simp [hk]⟩
    cases hfl : rest.filter (fun x => dateKey now x == k2) with
    | nil => rw [hfl] at hmem; exact absurd hmem (List.not_mem_nil _)
    | cons y ys => rfl
  rw [hfe]
  simp only [Bool.false_eq_true, reduceIte]
  have hf1 : (m0 :: rest).filter (fun m => dateKey now m == k1) =
      m0 :: rest.filter (fun m => dateKey now m == k1) := by
    simp [List.filter_cons, h0]
  have hf2 : (m0 :: rest).filter (fun m => dateKey now m == k2) =
      rest.filter (fun m => dateKey now m == k2) := by
    simp [List.filter_cons, h0, hk12]
  rw [hf1, hf2]
  rfl

/-- C6: a batch whose messages span exactly two distinct calendar-date keys
is flushed as two separate partition files, each holding exactly the
messages whose derived date key matches that partition (the round-trip
hypotheses state that the two keys are well-formed date strings, which
strptime followed by strftime reproduces). -/
theorem flush_partition_grouping (now : PyDateTime) (channel_name k1 k2 : String)
    (m0 : MessageData) (rest : List MessageData) (st : ScraperState) (fs : FileSystem)
    (hne : k1 ≠ k2)
    (h0 : dateKey now m0 = k1)
    (hall : ∀ m ∈ m0 :: rest, dateKey now m = k1 ∨ dateKey now m = k2)
    (hk2 : ∃ m ∈ rest, dateKey now m = k2)
    (hr1 : (strptimeDate k1).strftimeDate = k1)
    (hr2 : (strptimeDate k2).strftimeDate = k2)
    (hfs : fs.jsonFiles = []) :
    (flush_by_date now channel_name (m0 :: rest) st fs).2.jsonFiles =
      [(messagesPath k1 (sanitizeChannelName channel_name),
        FileContent.valid ((m0 :: rest).filter (fun m => dateKey now m == k1))),
       (messagesPath k2 (sanitizeChannelName channel_name),
        FileContent.valid ((m0 :: rest).filter (fun m => dateKey now m == k2)))] := by
  have hg1ne : (m0 :: rest).filter (fun m => dateKey now m == k1) ≠ [] := by
    intro hempty
    have hmem : m0 ∈ (m0 :: rest).filter (fun m => dateKey now m == k1) :=
      List.mem_filter.mpr ⟨List.mem_cons_self _ _, by simp [h0]⟩
    rw [hempty] at hmem
    exact absurd hmem (List.not_mem_nil _)
  have hg2ne : (m0 :: rest).filter (fun m => dateKey now m == k2) ≠ [] := by
    obtain ⟨m, hm, hk⟩ := hk2
    intro hempty
    have hmem : m ∈ (m0 :: rest).filter (fun x => dateKey now x == k2) :=
      List.mem_filter.mpr ⟨List.mem_cons_of_mem _ hm, by simp [hk]⟩
    rw [hempty] at hmem
    exact absurd hmem (List.not_mem_nil _)
  have hpne : messagesPath k1 (sanitizeChannelName channel_name) ≠
      messagesPath k2 (sanitizeChannelName channel_name) := by
    intro he
    exact hne (messagesPath_injective_date _ _ _ he)
  unfold flush_by_date
  rw [groupByDate_two_dates now k1 k2 hne m0 rest h0 hall hk2]
  rw [List.foldl_cons, List.foldl_cons, List.foldl_nil]
  have hsave1 := save_messages_fresh
    ((m0 :: rest).filter (fun m => dateKey now m == k1)) channel_name
    (strptimeDate k1) now st fs hg1ne
    (by rw [hfs]; rfl)
  rw [hr1] at hsave1
  have hsave2 := save_messages_fresh
    ((m0 :: rest).filter (fun m => dateKey now m == k2)) channel_name
    (strptimeDate k2) now
    { st with scraped_dates := setInsert st.scraped_dates k1 }
    { fs with jsonFiles := dictSet fs.jsonFiles (messagesPath k1 (sanitizeChannelName channel_name)) (FileContent.valid ((m0 :: rest).filter (fun m => dateKey now m == k1))) }
    hg2ne
    (by
      rw [hr2]
      show dictGet (dictSet fs.jsonFiles _ _) _ = none
      rw [hfs, dictSet_nil]
      exact dictGet_singleton_ne _ _ _ hpne)
  rw [hr2] at hsave2
  simp only [hsave1, hsave2]
  rw [hfs, dictSet_nil,
    dictSet_singleton_ne _ _ _ _ hpne]

/-- Concrete record dated 2026-01-17. -/
def recD1 : MessageData :=
  ⟨1, "CheMed123", some ⟨2026, 1, 17, 0, 0, 0⟩, "x", false, none, 0, 0, false, none, exNow⟩

/-- Concrete record dated 2026-01-18. -/
def recD2 : MessageData :=
  ⟨2, "CheMed123", some ⟨2026, 1, 18, 0, 0, 0⟩, "y", false, none, 0, 0, false, none, exNow⟩

/-- Witness for flush_partition_grouping: two records on consecutive days
are flushed to two partition files, one record each. -/
theorem flush_partition_grouping_witness :
    (flush_by_date exNow "CheMed123" [recD1, recD2]
        ⟨[], [], [], standardLimits 1500, []⟩ exFs).2.jsonFiles =
      [(messagesPath "2026-01-17" (sanitizeChannelName "CheMed123"),
        FileContent.valid [recD1]),
       (messagesPath "2026-01-18" (sanitizeChannelName "CheMed123"),
        FileContent.valid [recD2])] :=
  flush_partition_grouping exNow "CheMed123" "2026-01-17" "2026-01-18" recD1 [recD2]
    ⟨[], [], [], standardLimits 1500, []⟩ exFs
    (by decide) (by decide) (by decide) (by decide) (by decide) (by decide) rfl

end MedScraper
